import Mathlib

/-!
Verification development for the Metabase card-renderer module
(frontend charting glue: CardRenderer, lineAndBarOnRender,
applyChartTooltips, pin_map, and the geo heatmap renderers).

The JavaScript source is shallowly embedded: each renderer becomes a pure
Lean function over explicit data describing its inputs (cards, settings,
rows) and its observable effects (DOM mutations, registered handlers,
thrown strings, the ordered trace of rendering actions). Browser and
third-party builtins that the source merely calls (encodeURIComponent,
JSON.stringify, determineSeriesIndexFromElement, the GeoHeatmapChartRenderer
class) are parameters or config-recording builders, documented at each site.
-/

namespace CardRendererModel

/-- A JavaScript value as it appears in data rows: a string, a number
(modelled as an integer, row values in these charts are ids and counts),
null, or undefined. -/
inductive JSValue where
  | str (s : String)
  | num (n : Int)
  | null
  | undef
deriving DecidableEq, Repr, Inhabited

/-- JavaScript array indexing: out-of-range access yields undefined. -/
def jsIndex (row : List JSValue) (i : Nat) : JSValue :=
  row.getD i JSValue.undef

/-! ## pin_map (CardRenderer.pin_map)

The source reads four nullable values out of
card.visualization_settings.map, returns early when either dataset column
index is null, throws a string when either source-table field id is null,
has a second (dead) throw guarded by the very condition that already
returned, and otherwise builds a google.maps map whose overlay tile URLs
are produced by getTileUrl. The google.maps objects themselves are browser
externals; the embedding records the configuration that reaches them. -/

/-- The map block of a card.visualization_settings, fields read by pin_map. -/
structure MapSettings where
  latitude_dataset_col_index : Option Int
  longitude_dataset_col_index : Option Int
  latitude_source_table_field_id : Option Int
  longitude_source_table_field_id : Option Int
  zoom : Int
  center_latitude : Int
  center_longitude : Int
deriving DecidableEq, Repr

/-- The parts of a card that pin_map reads: dataset_query (an opaque query
object, carried as its JSON text) and the map visualization settings. -/
structure PinCard where
  dataset_query : String
  map : MapSettings
deriving DecidableEq, Repr

/-- The configuration of a successfully rendered pin map: the four column
ids spliced into tile URLs plus the encoded query string and map options. -/
structure RenderedMap where
  latitude_source_table_field_id : Int
  longitude_source_table_field_id : Int
  latitude_dataset_col_index : Int
  longitude_dataset_col_index : Int
  encodedQuery : String
  zoom : Int
  center_latitude : Int
  center_longitude : Int
deriving DecidableEq, Repr

/-- Observable outcome of a pin_map call: silent early return, a thrown
string, or a rendered map configuration. -/
inductive PinMapOutcome where
  | earlyReturn
  | thrown (msg : String)
  | rendered (m : RenderedMap)
deriving DecidableEq, Repr

/-- True exactly on the thrown outcome. -/
def PinMapOutcome.isThrown : PinMapOutcome → Bool
  | .thrown _ => true
  | _ => false

/-- CardRenderer.pin_map, embedded. The enc parameter stands for the
browser builtin composition encodeURIComponent(JSON.stringify(query));
the source applies it to card.dataset_query when building tile URLs.
DOM sizing, the google.maps constructor calls and the event listeners at
the end of the source function mutate external objects only and carry no
decision relevant to the outcome, so the outcome records the configuration
handed to them. -/
def pin_map (enc : String → String) (card : PinCard) : PinMapOutcome :=
  let query := card.dataset_query
  let latitude_dataset_col_index := card.map.latitude_dataset_col_index
  let longitude_dataset_col_index := card.map.longitude_dataset_col_index
  let latitude_source_table_field_id := card.map.latitude_source_table_field_id
  let longitude_source_table_field_id := card.map.longitude_source_table_field_id
  if latitude_dataset_col_index.isNone || longitude_dataset_col_index.isNone then
    PinMapOutcome.earlyReturn
  else if latitude_source_table_field_id.isNone || longitude_source_table_field_id.isNone then
    PinMapOutcome.thrown "Map ERROR: latitude and longitude column indices must be specified"
  else if latitude_dataset_col_index.isNone || longitude_dataset_col_index.isNone then
    PinMapOutcome.thrown "Map ERROR: unable to find specified latitude / longitude columns in source table"
  else
    PinMapOutcome.rendered
      { latitude_source_table_field_id := latitude_source_table_field_id.getD 0
        longitude_source_table_field_id := longitude_source_table_field_id.getD 0
        latitude_dataset_col_index := latitude_dataset_col_index.getD 0
        longitude_dataset_col_index := longitude_dataset_col_index.getD 0
        encodedQuery := enc query
        zoom := card.map.zoom
        center_latitude := card.map.center_latitude
        center_longitude := card.map.center_longitude }

/-- The getTileUrl closure of the ImageMapType built by pin_map, embedded
verbatim from the source concatenation (JavaScript number-to-string
coercion is Int.repr on integral tile coordinates). -/
def RenderedMap.getTileUrl (m : RenderedMap) (coordX coordY zoom : Int) : String :=
  "/api/tiles/" ++ toString zoom ++ "/" ++ toString coordX ++ "/" ++ toString coordY ++ "/" ++
    toString m.latitude_source_table_field_id ++ "/" ++ toString m.longitude_source_table_field_id ++ "/" ++
    toString m.latitude_dataset_col_index ++ "/" ++ toString m.longitude_dataset_col_index ++ "/" ++
    "?query=" ++ m.encodedQuery

/-- The tile URL as the specification words it: the /api/tiles prefix with
zoom and tile coordinates, the two source-table field ids, the two dataset
column indices, each separated by a slash, ending with /?query= and the
encoded query. -/
def tileUrlSpec (zoom x y latField lngField latCol lngCol : Int) (encodedQuery : String) : String :=
  "/api/tiles/" ++ toString zoom ++ "/" ++ toString x ++ "/" ++ toString y ++ "/" ++
    toString latField ++ "/" ++ toString lngField ++ "/" ++
    toString latCol ++ "/" ++ toString lngCol ++
    "/?query=" ++ encodedQuery

/-! ## lineAndBarOnRender

The source grabs the svg, then runs four independent try/catch blocks that
set presentation attributes on the x-axis label node, the y-axis label
node and the children of the two grid-line containers; missing nodes or an
undefined settings.xAxis/yAxis throw inside the block and are swallowed by
its catch. After the blocks it registers a renderlet, sets the left and
bottom margins from the axis bounding boxes (this part is not inside a
try/catch) and calls chart.render() again. -/

/-- An attribute list of a DOM node (name, value pairs). -/
abbrev AttrList := List (String × String)

/-- element.setAttribute: replace an existing attribute or append it. -/
def setAttribute (attrs : AttrList) (name v : String) : AttrList :=
  if attrs.any (fun p => p.1 = name) then
    attrs.map (fun p => if p.1 = name then (name, v) else p)
  else
    attrs ++ [(name, v)]

/-- The SVG nodes lineAndBarOnRender touches. A none marks a node the d3
selection did not find, so that svg.select(...)[0][0] is undefined: using
it as a DOM element (setAttribute, .children) throws. -/
structure SVGDom where
  xAxisLabelNode : Option AttrList
  yAxisLabelNode : Option AttrList
  vertGridLineChildren : Option (List AttrList)
  horzGridLineChildren : Option (List AttrList)
deriving DecidableEq, Repr

/-- The axis settings object read by lineAndBarOnRender; every field is
nullable as in the source data. -/
structure AxisCustomSettings where
  title_color : Option String
  title_font_size : Option String
  gridLineWidth : Option String
  gridLineColor : Option String
deriving DecidableEq, Repr

/-- The customizer closure applied to a single element: a no-op when the
attribute value is falsy, a throw when the value is truthy but the element
is undefined, and setAttribute otherwise. The optional transform is
applied to the value first, as in the source. -/
def customizeSingle (elem : Option AttrList) (name : String) (v : Option String)
    (tf : Option (String → String)) : Except String (Option AttrList) :=
  match v with
  | none => Except.ok elem
  | some val =>
    let val := match tf with
      | some f => f val
      | none => val
    match elem with
    | none => Except.error "TypeError: element is undefined"
    | some attrs => Except.ok (some (setAttribute attrs name val))

/-- The customizer closure applied to an element collection (the grid-line
children): element.length is non-null, so the source loops setAttribute
over the collection; this never throws once the collection exists. -/
def customizeMany (elems : List AttrList) (name : String) (v : Option String)
    (tf : Option (String → String)) : List AttrList :=
  match v with
  | none => elems
  | some val =>
    let val := match tf with
      | some f => f val
      | none => val
    elems.map (fun attrs => setAttribute attrs name val)

/-- The x-axis label try-block body: reading x.title_color throws when the
xAxis settings object is undefined; then fill and font-size are set. -/
def xLabelBlock (svg : SVGDom) (x : Option AxisCustomSettings) : Except String SVGDom := do
  match x with
  | none => Except.error "TypeError: x is undefined"
  | some xs =>
    let e1 ← customizeSingle svg.xAxisLabelNode "fill" xs.title_color none
    let e2 ← customizeSingle e1 "font-size" xs.title_font_size none
    Except.ok { svg with xAxisLabelNode := e2 }

/-- The y-axis label try-block body. -/
def yLabelBlock (svg : SVGDom) (y : Option AxisCustomSettings) : Except String SVGDom := do
  match y with
  | none => Except.error "TypeError: y is undefined"
  | some ys =>
    let e1 ← customizeSingle svg.yAxisLabelNode "fill" ys.title_color none
    let e2 ← customizeSingle e1 "font-size" ys.title_font_size none
    Except.ok { svg with yAxisLabelNode := e2 }

/-- The vertical grid-line try-block body: accessing .children throws when
the grid-line container is missing, before any settings value is read;
then stroke-width and the style string are applied to every child. -/
def vertGridLineBlock (svg : SVGDom) (x : Option AxisCustomSettings) : Except String SVGDom :=
  match svg.vertGridLineChildren with
  | none => Except.error "TypeError: cannot read children of undefined"
  | some children =>
    match x with
    | none => Except.error "TypeError: x is undefined"
    | some xs =>
      let c1 := customizeMany children "stroke-width" xs.gridLineWidth none
      let c2 := customizeMany c1 "style" xs.gridLineColor
        (some (fun colorStr => "stroke:" ++ colorStr ++ ";"))
      Except.ok { svg with vertGridLineChildren := some c2 }

/-- The horizontal grid-line try-block body; the source transform ignores
its argument and always produces the constant stroke style. -/
def horzGridLineBlock (svg : SVGDom) (y : Option AxisCustomSettings) : Except String SVGDom :=
  match svg.horzGridLineChildren with
  | none => Except.error "TypeError: cannot read children of undefined"
  | some children =>
    match y with
    | none => Except.error "TypeError: y is undefined"
    | some ys =>
      let c1 := customizeMany children "stroke-width" ys.gridLineWidth none
      let c2 := customizeMany c1 "style" ys.gridLineColor
        (some (fun _colorStr => "stroke:" ++ "#ddd" ++ ";"))
      Except.ok { svg with horzGridLineChildren := some c2 }

/-- The try/catch wrapper around one customization block: a throw leaves
the svg as the block left it; each block above mutates nothing before it
can throw, so the pre-block svg is the caught state. -/
def tryBlock (svg : SVGDom) (block : SVGDom → Except String SVGDom) : SVGDom :=
  match block svg with
  | Except.ok s => s
  | Except.error _ => svg

/-- The dc.js chart state lineAndBarOnRender manipulates: its svg, the
bounding-box sizes of the rendered axes (none when the axis node is
missing, making getBBox throw), the margins and a render counter. -/
structure LBChartState where
  svg : SVGDom
  yAxisBBoxWidth : Option Int
  xAxisBBoxHeight : Option Int
  marginLeft : Int
  marginBottom : Int
  renderCount : Nat
  renderletRegistered : Bool
deriving DecidableEq, Repr

/-- The card visualization settings read by lineAndBarOnRender: the xAxis
and yAxis objects, each possibly undefined. -/
structure LBCardSettings where
  xAxis : Option AxisCustomSettings
  yAxis : Option AxisCustomSettings
deriving DecidableEq, Repr

/-- lineAndBarOnRender, embedded: the four guarded customization blocks,
the renderlet registration, then the unguarded margin adjustment from the
axis bounding boxes and the re-render. A TypeError in the margin code (a
missing .axis.y or .axis.x node) propagates as an error result. -/
def lineAndBarOnRender (chart : LBChartState) (settings : LBCardSettings) :
    Except String LBChartState :=
  let x := settings.xAxis
  let y := settings.yAxis
  let svg1 := tryBlock chart.svg (fun s => xLabelBlock s x)
  let svg2 := tryBlock svg1 (fun s => yLabelBlock s y)
  let svg3 := tryBlock svg2 (fun s => vertGridLineBlock s x)
  let svg4 := tryBlock svg3 (fun s => horzGridLineBlock s y)
  let chart1 := { chart with svg := svg4, renderletRegistered := true }
  match chart1.yAxisBBoxWidth with
  | none => Except.error "TypeError: cannot call getBBox of undefined"
  | some w =>
    match chart1.xAxisBBoxHeight with
    | none => Except.error "TypeError: cannot call getBBox of undefined"
    | some h =>
      Except.ok { chart1 with
        marginLeft := w + 30
        marginBottom := h + 30
        renderCount := chart1.renderCount + 1 }

/-! ## CardRenderer: pie, lineAreaBar, bar/line/area, state, country

These renderers drive dc.js/crossfilter and the GeoHeatmapChartRenderer.
The claims about them concern the validation guard, the delegation
structure, the fixed JSON endpoints, the country-code mapping, and the
synchronous ordering of effects. The effects on the external chart
libraries are embedded as an ordered trace of actions performed during the
call; a deferToLaterTurn action stands for scheduling work on a later
event-loop turn (setTimeout and the like), which the source never does. -/

/-- A target DOM element handed to a renderer, identified opaquely. -/
structure Element where
  id : Nat
deriving DecidableEq, Repr, Inhabited

/-- A dataset column descriptor, the fields the renderers read. -/
structure Col where
  base_type : String
  display_name : String
deriving DecidableEq, Repr, Inhabited

/-- A query result: columns and data rows. -/
structure DataResult where
  cols : List Col
  rows : List (List JSValue)
deriving DecidableEq, Repr, Inhabited

/-- The card fields the chart constructors read. -/
structure SeriesCard where
  display : String
deriving DecidableEq, Repr, Inhabited

/-- One entry of the series array: a card and its data. -/
structure SeriesEntry where
  card : SeriesCard
  data : DataResult
deriving DecidableEq, Repr, Inhabited

/-- getDcjsChartType, embedded from the source switch. -/
def getDcjsChartType (cardType : String) : String :=
  match cardType with
  | "pie" => "pieChart"
  | "line" => "lineChart"
  | "area" => "lineChart"
  | "bar" => "barChart"
  | _ => "barChart"

/-- One observable action a renderer performs, in call order. -/
inductive Action where
  | mkCrossfilter
  | addSeriesData (index : Nat)
  | mkDimension
  | mkGroup (index : Nat)
  | mkChart (dcjsType : String)
  | mkSubChart (index : Nat)
  | applyXAxis
  | applyYAxis
  | registerTooltips
  | disableBrush
  | render
  | adjustMarginsAndRerender
  | callOnRender
  | deferToLaterTurn
deriving DecidableEq, Repr

/-- The props destructured by lineAreaBar: the series array and whether
the optional onHoverChange / onRender callbacks were provided. -/
structure LABProps where
  series : List SeriesEntry
  onHoverChange : Bool
  onRenderProvided : Bool
deriving DecidableEq, Repr

/-- Result of a lineAreaBar call: whether the validation guard returned
early, and the ordered trace of actions performed before returning. -/
structure LABResult where
  returnedEarly : Bool
  trace : List Action
deriving DecidableEq, Repr

namespace CardRenderer

/-- CardRenderer.lineAreaBar, embedded as its control flow and action
trace: destructure series[0], validate that the first result has at least
2 columns (returning early otherwise), build the crossfilter dataset with
one add per series, the dimension and one group per series, construct
either a single stacked chart or a composite chart with one sub-chart per
series, apply the x-axis and y-axis settings, register tooltips, disable
brushing, render, run lineAndBarOnRender (margin adjustment plus
re-render), and finally invoke onRender when provided. -/
def lineAreaBar (element : Element) (chartType : String) (props : LABProps) : LABResult :=
  let first := props.series.headD default
  let result := first.data
  let isStacked := chartType == "area"
  if result.cols.length < 2 then
    { returnedEarly := true, trace := [] }
  else
    let setupTrace :=
      [Action.mkCrossfilter] ++
      (List.range props.series.length).map Action.addSeriesData ++
      [Action.mkDimension] ++
      (List.range props.series.length).map Action.mkGroup
    let chartTrace :=
      if isStacked || props.series.length == 1 then
        [Action.mkChart (getDcjsChartType first.card.display)]
      else
        [Action.mkChart "compositeChart"] ++
        (List.range props.series.length).map Action.mkSubChart
    { returnedEarly := false
      trace := setupTrace ++ chartTrace ++
        [Action.applyXAxis, Action.applyYAxis, Action.registerTooltips,
         Action.disableBrush, Action.render, Action.adjustMarginsAndRerender] ++
        (if props.onRenderProvided then [Action.callOnRender] else []) }

/-- CardRenderer.bar delegates to lineAreaBar with chartType bar. -/
def bar (element : Element) (props : LABProps) : LABResult :=
  lineAreaBar element "bar" props

/-- CardRenderer.line delegates to lineAreaBar with chartType line. -/
def line (element : Element) (props : LABProps) : LABResult :=
  lineAreaBar element "line" props

/-- CardRenderer.area delegates to lineAreaBar with chartType area. -/
def area (element : Element) (props : LABProps) : LABResult :=
  lineAreaBar element "area" props

end CardRenderer

/-- A key/value pair as pie builds from each data row. -/
structure KeyValue where
  key : JSValue
  value : JSValue
deriving DecidableEq, Repr

/-- The props read by CardRenderer.pie. -/
structure PieInput where
  card : SeriesCard
  rows : List (List JSValue)
  onHoverChange : Bool
deriving DecidableEq, Repr

/-- Result of a pie call: the mapped data and the action trace. -/
structure PieResult where
  data : List KeyValue
  trace : List Action
deriving DecidableEq, Repr

namespace CardRenderer

/-- CardRenderer.pie, embedded: map each row to a key/value pair, build
the crossfilter dataset, dimension and group, initialize the chart from
the card display type, register tooltips, and render before returning. -/
def pie (element : Element) (input : PieInput) : PieResult :=
  let data := input.rows.map (fun row => { key := jsIndex row 0, value := jsIndex row 1 })
  { data := data
    trace := [Action.mkCrossfilter, Action.mkDimension, Action.mkGroup 0,
              Action.mkChart (getDcjsChartType input.card.display),
              Action.registerTooltips, Action.render] }

end CardRenderer

/-! ## Geo heatmaps (state, country)

Modelled from the spec: the GeoHeatmapChartRenderer class lives in a
module (GeoHeatmapChartRenderer.js) that is not among the given sources;
the spec describes the endpoints it consumes as static JSON data under
/app/charts/. The class is embedded as a fluent builder that records the
configuration each chained call passes it, with render performing the
synchronous paint (rendering is synchronous per paint call). -/

/-- The properties object of a GeoJSON feature, the fields the key
accessors read. -/
structure FeatureProperties where
  name : String
  ISO_A2 : String
  NAME : String
deriving DecidableEq, Repr

/-- A GeoJSON feature. -/
structure Feature where
  properties : FeatureProperties
deriving DecidableEq, Repr

/-- A chart datum handed to setData: the key column value and the metric
value (the source uses property names stateCode/code recorded in
dataKeyColumn). -/
structure GeoDatum where
  key : JSValue
  value : JSValue
deriving DecidableEq, Repr

/-- Modelled from the spec: the GeoHeatmapChartRenderer builder state. -/
structure GeoHeatmapChartRenderer where
  element : Element
  chartData : List GeoDatum
  dataKeyColumn : Option String
  dataValueColumn : Option String
  jsonPath : Option String
  jsonKeyAccessor : Option (Feature → String)
  projectionName : Option String
  customized : Bool
  rendered : Bool

/-- Modelled from the spec: the freshly constructed builder. -/
def GeoHeatmapChartRenderer.init (element : Element) : GeoHeatmapChartRenderer :=
  { element := element, chartData := [], dataKeyColumn := none, dataValueColumn := none
    jsonPath := none, jsonKeyAccessor := none, projectionName := none
    customized := false, rendered := false }

/-- Modelled from the spec: setData records the data and column names. -/
def GeoHeatmapChartRenderer.setData (r : GeoHeatmapChartRenderer)
    (d : List GeoDatum) (k v : String) : GeoHeatmapChartRenderer :=
  { r with chartData := d, dataKeyColumn := some k, dataValueColumn := some v }

/-- Modelled from the spec: setJson records the JSON source path and the
feature key accessor. -/
def GeoHeatmapChartRenderer.setJson (r : GeoHeatmapChartRenderer)
    (path : String) (keyAcc : Feature → String) : GeoHeatmapChartRenderer :=
  { r with jsonPath := some path, jsonKeyAccessor := some keyAcc }

/-- Modelled from the spec: setProjection records the d3 projection. -/
def GeoHeatmapChartRenderer.setProjection (r : GeoHeatmapChartRenderer)
    (p : String) : GeoHeatmapChartRenderer :=
  { r with projectionName := some p }

/-- Modelled from the spec: customize records the tooltip customization
callback registration. -/
def GeoHeatmapChartRenderer.customize (r : GeoHeatmapChartRenderer) :
    GeoHeatmapChartRenderer :=
  { r with customized := true }

/-- Modelled from the spec: render performs the synchronous paint before
returning the renderer. -/
def GeoHeatmapChartRenderer.render (r : GeoHeatmapChartRenderer) :
    GeoHeatmapChartRenderer :=
  { r with rendered := true }

/-- The props read by CardRenderer.state and CardRenderer.country. -/
structure GeoInput where
  card : SeriesCard
  rows : List (List JSValue)
  onHoverChange : Bool
deriving DecidableEq, Repr

/-- The country-code computation of CardRenderer.country: a string first
value becomes its first two characters upper-cased (JavaScript
substring(0, 2).toUpperCase(), ASCII case mapping); any other value
passes through unchanged. -/
def countryCodeFromValue (v : JSValue) : JSValue :=
  match v with
  | JSValue.str s => JSValue.str ((s.take 2).toUpper)
  | other => other

namespace CardRenderer

/-- CardRenderer.state, embedded: map rows to stateCode/value pairs, then
chain setData, setJson with the us-states endpoint keyed by
properties.name, the albersUsa projection, customize, and render. -/
def state (element : Element) (input : GeoInput) : GeoHeatmapChartRenderer :=
  let chartData := input.rows.map (fun value =>
    { key := jsIndex value 0, value := jsIndex value 1 })
  ((((GeoHeatmapChartRenderer.init element).setData chartData "stateCode" "value").setJson
      "/app/charts/us-states.json" (fun d => d.properties.name)).setProjection
      "albersUsa").customize.render

/-- CardRenderer.country, embedded: map rows to code/value pairs through
the country-code computation, then chain setData, setJson with the world
endpoint keyed by properties.ISO_A2, the mercator projection, customize,
and render. -/
def country (element : Element) (input : GeoInput) : GeoHeatmapChartRenderer :=
  let chartData := input.rows.map (fun value =>
    { key := countryCodeFromValue (jsIndex value 0), value := jsIndex value 1 })
  ((((GeoHeatmapChartRenderer.init element).setData chartData "code" "value").setJson
      "/app/charts/world.json" (fun d => d.properties.ISO_A2)).setProjection
      "mercator").customize.render

end CardRenderer

/-! ## applyChartTooltips

The source registers a renderlet; when it fires it selects the elements
matching .bar, .dot, .area, .line, g.pie-slice, g.features, binds the
mousemove and mouseleave handlers on them, and removes every title element
from the chart. determineSeriesIndexFromElement is imported from the
tooltip module (not among the given sources) and is a parameter here, as
the claim words it: the series index determined from the element. -/

/-- A rendered chart DOM element: tag name, class list, bound datum. -/
structure DomElement where
  tag : String
  classes : List String
  datum : JSValue
deriving DecidableEq, Repr

/-- Membership in the d3 selector .bar, .dot, .area, .line, g.pie-slice,
g.features. -/
def matchesTooltipSelector (e : DomElement) : Bool :=
  e.classes.contains "bar" || e.classes.contains "dot" ||
  e.classes.contains "area" || e.classes.contains "line" ||
  (e.tag == "g" && e.classes.contains "pie-slice") ||
  (e.tag == "g" && e.classes.contains "features")

/-- One invocation of the onHoverChange callback: with the hovered
element, its datum and the series index, or with null. -/
inductive HoverCall where
  | call (elem : DomElement) (datum : JSValue) (seriesIndex : Nat)
  | callNull
deriving DecidableEq, Repr

/-- The calls a bound handler makes on each mouse event. -/
structure MouseHandlers where
  mousemove : List HoverCall
  mouseleave : List HoverCall
deriving DecidableEq, Repr

/-- The chart as the renderlet sees it: rendered elements and the title
elements present in its SVG. -/
structure TooltipChart where
  elements : List DomElement
  titles : List String
deriving DecidableEq, Repr

/-- applyChartTooltips, embedded as the effect of the renderlet it
registers: the chart loses all its title elements, and every element
matching the selector gets mousemove/mouseleave handlers whose calls are
listed; the mousemove handler only calls onHoverChange when it is
present, and mouseleave guards the call the same way. -/
def applyChartTooltips (dsi : DomElement → Nat) (onHoverChangePresent : Bool)
    (chart : TooltipChart) : TooltipChart × List (DomElement × MouseHandlers) :=
  ({ chart with titles := [] },
   (chart.elements.filter matchesTooltipSelector).map (fun e =>
     (e, { mousemove := if onHoverChangePresent then [HoverCall.call e e.datum (dsi e)] else []
           mouseleave := if onHoverChangePresent then [HoverCall.callNull] else [] })))

/-- Concrete pin-map card: every latitude and longitude configuration
value in the map settings is null. -/
def cardAllNull : PinCard :=
  { dataset_query := "sample-query"
    map := { latitude_dataset_col_index := none, longitude_dataset_col_index := none
             latitude_source_table_field_id := none, longitude_source_table_field_id := none
             zoom := 2, center_latitude := 0, center_longitude := 0 } }

/-- Concrete pin-map card: dataset column indices present, source-table
field ids null. -/
def cardMissingFieldIds : PinCard :=
  { dataset_query := "sample-query"
    map := { latitude_dataset_col_index := some 3, longitude_dataset_col_index := some 4
             latitude_source_table_field_id := none, longitude_source_table_field_id := none
             zoom := 2, center_latitude := 0, center_longitude := 0 } }

/-- Concrete pin-map card with a full latitude/longitude configuration. -/
def cardFullConfig : PinCard :=
  { dataset_query := "sample-query"
    map := { latitude_dataset_col_index := some 3, longitude_dataset_col_index := some 4
             latitude_source_table_field_id := some 17, longitude_source_table_field_id := some 18
             zoom := 2, center_latitude := 0, center_longitude := 0 } }

/-- Re-associating the trailing slash into the query marker. -/
theorem append_slash_query (s : String) : "/" ++ ("?query=" ++ s) = "/?query=" ++ s := by
  rw [← String.append_assoc]
  rfl

end CardRendererModel

namespace CardRendererModel

/-- C2: whatever the four customization blocks do (missing SVG nodes,
undefined axis settings, null values), lineAndBarOnRender never propagates
their exceptions: whenever the unguarded margin code can read the axis
bounding boxes, the call succeeds, the margins are adjusted from those
boxes, and the chart is re-rendered. -/
theorem lineAndBarOnRender_best_effort (chart : LBChartState) (settings : LBCardSettings)
    (w h : Int)
    (hw : chart.yAxisBBoxWidth = some w)
    (hh : chart.xAxisBBoxHeight = some h) :
    ∃ s, lineAndBarOnRender chart settings = Except.ok s ∧
      s.renderCount = chart.renderCount + 1 ∧
      s.marginLeft = w + 30 ∧
      s.marginBottom = h + 30 ∧
      s.renderletRegistered = true := by
  unfold lineAndBarOnRender
  dsimp only
  rw [hw, hh]
  exact ⟨_, rfl, rfl, rfl, rfl, rfl⟩

/-- A concrete chart for the C2 witness: the x-axis label node and the
vertical grid-line container are missing from the SVG, so two of the four
customization blocks throw and are caught. -/
def lbChartSample : LBChartState :=
  { svg := { xAxisLabelNode := none
             yAxisLabelNode := some [("fill", "#000")]
             vertGridLineChildren := none
             horzGridLineChildren := some [[]] }
    yAxisBBoxWidth := some 40, xAxisBBoxHeight := some 20
    marginLeft := 0, marginBottom := 0, renderCount := 1, renderletRegistered := false }

/-- Concrete settings for the C2 witness: the xAxis settings object is
undefined, which makes the x-label and vertical grid blocks throw. -/
def lbSettingsSample : LBCardSettings :=
  { xAxis := none
    yAxis := some { title_color := some "#333", title_font_size := none
                    gridLineWidth := none, gridLineColor := some "red" } }

/-- C2 witness: on the concrete chart with missing nodes and undefined
xAxis settings the call still succeeds, re-renders and sets the margins. -/
theorem lineAndBarOnRender_best_effort_witness :
    ∃ s, lineAndBarOnRender lbChartSample lbSettingsSample = Except.ok s ∧
      s.renderCount = lbChartSample.renderCount + 1 ∧
      s.marginLeft = 40 + 30 ∧
      s.marginBottom = 20 + 30 ∧
      s.renderletRegistered = true :=
  lineAndBarOnRender_best_effort lbChartSample lbSettingsSample 40 20 rfl rfl

/-- C1 counterexample: on a card whose latitude/longitude configuration
values are all null, pin_map returns early and does not throw, refuting
the claim that any null configuration value makes pin_map throw. -/
theorem pin_map_missing_col_index_does_not_throw :
    cardAllNull.map.latitude_dataset_col_index = none ∧
    (pin_map id cardAllNull).isThrown = false ∧
    pin_map id cardAllNull = PinMapOutcome.earlyReturn := by
  refine ⟨rfl, ?_, ?_⟩ <;> rfl

/-- C1 (amended): when either dataset column index is null, pin_map
returns early without throwing; when both dataset column indices are
present but either source-table field id is null, pin_map throws the
string error message. -/
theorem pin_map_missing_config_behavior (enc : String → String) (card : PinCard) :
    ((card.map.latitude_dataset_col_index = none ∨
      card.map.longitude_dataset_col_index = none) →
        pin_map enc card = PinMapOutcome.earlyReturn) ∧
    (card.map.latitude_dataset_col_index ≠ none →
     card.map.longitude_dataset_col_index ≠ none →
     (card.map.latitude_source_table_field_id = none ∨
      card.map.longitude_source_table_field_id = none) →
        pin_map enc card =
          PinMapOutcome.thrown "Map ERROR: latitude and longitude column indices must be specified") := by
  constructor
  · intro h
    rcases h with h | h <;> simp [pin_map, h]
  · intro h1 h2 h3
    rcases h3 with h3 | h3 <;>
      simp [pin_map, h1, h2, h3, Option.isNone_iff_eq_none]

/-- C1 witness: the amended behavior evaluated on concrete cards. -/
theorem pin_map_missing_config_behavior_witness :
    pin_map id cardAllNull = PinMapOutcome.earlyReturn ∧
    pin_map id cardMissingFieldIds =
      PinMapOutcome.thrown "Map ERROR: latitude and longitude column indices must be specified" :=
  ⟨(pin_map_missing_config_behavior id cardAllNull).1 (Or.inl rfl),
   (pin_map_missing_config_behavior id cardMissingFieldIds).2
     (by decide) (by decide) (Or.inl rfl)⟩

/-- C3: with a full latitude/longitude configuration, pin_map renders and
the tile URL its getTileUrl produces for tile (x, y) at zoom z is exactly
the /api/tiles path of the specification: zoom, x, y, the two source-table
field ids, the two dataset column indices, each separated by a slash,
ending with /?query= and the encoded dataset_query. -/
theorem pin_map_tile_url_format (enc : String → String) (card : PinCard)
    (a b c d : Int)
    (h1 : card.map.latitude_dataset_col_index = some a)
    (h2 : card.map.longitude_dataset_col_index = some b)
    (h3 : card.map.latitude_source_table_field_id = some c)
    (h4 : card.map.longitude_source_table_field_id = some d)
    (x y z : Int) :
    ∃ m, pin_map enc card = PinMapOutcome.rendered m ∧
      m.getTileUrl x y z = tileUrlSpec z x y c d a b (enc card.dataset_query) := by
  refine ⟨{ latitude_source_table_field_id := c, longitude_source_table_field_id := d
            latitude_dataset_col_index := a, longitude_dataset_col_index := b
            encodedQuery := enc card.dataset_query
            zoom := card.map.zoom
            center_latitude := card.map.center_latitude
            center_longitude := card.map.center_longitude }, ?_, ?_⟩
  · simp [pin_map, h1, h2, h3, h4]
  · simp [RenderedMap.getTileUrl, tileUrlSpec, String.append_assoc, append_slash_query]

/-- C3 witness: tile URL format evaluated on a concrete card and tile. -/
theorem pin_map_tile_url_format_witness :
    ∃ m, pin_map id cardFullConfig = PinMapOutcome.rendered m ∧
      m.getTileUrl 5 6 7 = tileUrlSpec 7 5 6 17 18 3 4 "sample-query" :=
  pin_map_tile_url_format id cardFullConfig 3 4 17 18 rfl rfl rfl rfl 5 6 7

/-- C4: the geo heatmap renderers always read fixed JSON endpoints:
state uses /app/charts/us-states.json keyed by each feature property
name, country uses /app/charts/world.json keyed by the feature property
ISO_A2, for every input. -/
theorem geo_renderers_fixed_json_sources (element : Element) (input : GeoInput) :
    (CardRenderer.state element input).jsonPath = some "/app/charts/us-states.json" ∧
    (CardRenderer.state element input).jsonKeyAccessor = some (fun d => d.properties.name) ∧
    (CardRenderer.country element input).jsonPath = some "/app/charts/world.json" ∧
    (CardRenderer.country element input).jsonKeyAccessor = some (fun d => d.properties.ISO_A2) :=
  ⟨rfl, rfl, rfl, rfl⟩

/-- C5: bar, line and area each delegate to lineAreaBar with the
corresponding chartType argument, computing the same result on every
element and props. -/
theorem cardRenderer_delegation (element : Element) (props : LABProps) :
    CardRenderer.bar element props = CardRenderer.lineAreaBar element "bar" props ∧
    CardRenderer.line element props = CardRenderer.lineAreaBar element "line" props ∧
    CardRenderer.area element props = CardRenderer.lineAreaBar element "area" props :=
  ⟨rfl, rfl, rfl⟩

/-- C6: with a present onHoverChange callback, the renderlet registered by
applyChartTooltips removes every title element and binds handlers on each
selector-matching element whose mousemove invokes onHoverChange with the
element, its datum and its series index, and whose mouseleave invokes
onHoverChange with null. -/
theorem applyChartTooltips_binds_handlers (dsi : DomElement → Nat) (chart : TooltipChart)
    (e : DomElement) (he : e ∈ chart.elements) (hm : matchesTooltipSelector e = true) :
    (applyChartTooltips dsi true chart).1.titles = [] ∧
    (e, { mousemove := [HoverCall.call e e.datum (dsi e)]
          mouseleave := [HoverCall.callNull] : MouseHandlers }) ∈
      (applyChartTooltips dsi true chart).2 := by
  constructor
  · rfl
  · simp only [applyChartTooltips, List.mem_map, List.mem_filter, if_pos trivial, if_true]
    exact ⟨e, ⟨he, hm⟩, rfl⟩

/-- A concrete chart for the C6 witness: one dot element and one
non-matching text element, with a stray title. -/
def tooltipChartSample : TooltipChart :=
  { elements := [{ tag := "circle", classes := ["dot"], datum := JSValue.num 7 },
                 { tag := "text", classes := [], datum := JSValue.null }]
    titles := ["old tooltip"] }

/-- C6 witness: on the concrete chart the titles are removed and the dot
element carries the expected handlers. -/
theorem applyChartTooltips_binds_handlers_witness :
    (applyChartTooltips (fun _ => 0) true tooltipChartSample).1.titles = [] ∧
    ({ tag := "circle", classes := ["dot"], datum := JSValue.num 7 : DomElement },
     { mousemove := [HoverCall.call
         { tag := "circle", classes := ["dot"], datum := JSValue.num 7 } (JSValue.num 7) 0]
       mouseleave := [HoverCall.callNull] : MouseHandlers }) ∈
      (applyChartTooltips (fun _ => 0) true tooltipChartSample).2 :=
  applyChartTooltips_binds_handlers (fun _ => 0) tooltipChartSample
    { tag := "circle", classes := ["dot"], datum := JSValue.num 7 }
    (by simp [tooltipChartSample]) (by decide)

/-- C7: rendering is synchronous per call: pie renders within the call and
defers nothing, lineAreaBar (when it does not return early) renders,
invokes onRender when provided and defers nothing, and state and country
have invoked render on their chart renderer before returning. -/
theorem rendering_synchronous (element : Element) (pin : PieInput) (gin : GeoInput)
    (chartType : String) (props : LABProps) :
    (Action.render ∈ (CardRenderer.pie element pin).trace ∧
      Action.deferToLaterTurn ∉ (CardRenderer.pie element pin).trace) ∧
    ((CardRenderer.lineAreaBar element chartType props).returnedEarly = false →
      (Action.render ∈ (CardRenderer.lineAreaBar element chartType props).trace ∧
       (props.onRenderProvided = true →
         Action.callOnRender ∈ (CardRenderer.lineAreaBar element chartType props).trace) ∧
       Action.deferToLaterTurn ∉ (CardRenderer.lineAreaBar element chartType props).trace)) ∧
    (CardRenderer.state element gin).rendered = true ∧
    (CardRenderer.country element gin).rendered = true := by
  refine ⟨⟨?_, ?_⟩, ?_, rfl, rfl⟩
  · simp [CardRenderer.pie]
  · simp [CardRenderer.pie]
  · intro hne
    by_cases hc : (props.series.headD default).data.cols.length < 2
    · unfold CardRenderer.lineAreaBar at hne
      dsimp only at hne
      rw [if_pos hc] at hne
      exact absurd hne (by decide)
    · unfold CardRenderer.lineAreaBar
      dsimp only
      rw [if_neg hc]
      refine ⟨?_, ?_, ?_⟩
      · simp
      · intro hr
        simp [hr]
      · simp [List.mem_map]
        split <;> simp [List.mem_map]

/-- A single-series props sample with two columns for the C7 witness. -/
def labPropsSample : LABProps :=
  { series := [{ card := { display := "bar" }
                 data := { cols := [{ base_type := "IntegerField", display_name := "id" },
                                    { base_type := "IntegerField", display_name := "count" }]
                           rows := [[JSValue.num 1, JSValue.num 10]] } }]
    onHoverChange := true, onRenderProvided := true }

/-- A pie input sample for the C7 witness. -/
def pieInputSample : PieInput :=
  { card := { display := "pie" }
    rows := [[JSValue.str "a", JSValue.num 1]], onHoverChange := false }

/-- A geo input sample for the C7 and C10 witnesses. -/
def geoInputSample : GeoInput :=
  { card := { display := "country" }
    rows := [[JSValue.str "Canada", JSValue.num 10], [JSValue.num 5, JSValue.num 6]]
    onHoverChange := true }

/-- C7 witness: the synchronous-rendering facts evaluated on concrete
inputs, with the early-return and onRender hypotheses discharged. -/
theorem rendering_synchronous_witness :
    Action.render ∈ (CardRenderer.pie ⟨0⟩ pieInputSample).trace ∧
    Action.render ∈ (CardRenderer.lineAreaBar ⟨0⟩ "bar" labPropsSample).trace ∧
    Action.callOnRender ∈ (CardRenderer.lineAreaBar ⟨0⟩ "bar" labPropsSample).trace ∧
    Action.deferToLaterTurn ∉ (CardRenderer.lineAreaBar ⟨0⟩ "bar" labPropsSample).trace ∧
    (CardRenderer.state ⟨0⟩ geoInputSample).rendered = true ∧
    (CardRenderer.country ⟨0⟩ geoInputSample).rendered = true := by
  have h := rendering_synchronous ⟨0⟩ pieInputSample geoInputSample "bar" labPropsSample
  have hlab := h.2.1 (by decide)
  exact ⟨h.1.1, hlab.1, hlab.2.1 (by decide), hlab.2.2, h.2.2.1, h.2.2.2⟩

/-- C8: when the first series result has fewer than 2 columns, lineAreaBar
returns early with an empty action trace: no crossfilter dataset, no
chart, no render, and nothing else touched. -/
theorem lineAreaBar_early_return (element : Element) (chartType : String) (props : LABProps)
    (h : (props.series.headD default).data.cols.length < 2) :
    (CardRenderer.lineAreaBar element chartType props).returnedEarly = true ∧
    (CardRenderer.lineAreaBar element chartType props).trace = [] := by
  unfold CardRenderer.lineAreaBar
  dsimp only
  rw [if_pos h]
  exact ⟨rfl, rfl⟩

/-- A single-series props sample with one column for the C8 witness. -/
def labPropsOneCol : LABProps :=
  { series := [{ card := { display := "line" }
                 data := { cols := [{ base_type := "IntegerField", display_name := "id" }]
                           rows := [[JSValue.num 1]] } }]
    onHoverChange := false, onRenderProvided := true }

/-- C8 witness: the early return evaluated on a one-column series. -/
theorem lineAreaBar_early_return_witness :
    (CardRenderer.lineAreaBar ⟨0⟩ "line" labPropsOneCol).returnedEarly = true ∧
    (CardRenderer.lineAreaBar ⟨0⟩ "line" labPropsOneCol).trace = [] :=
  lineAreaBar_early_return ⟨0⟩ "line" labPropsOneCol (by decide)

/-- C10: each chart datum of CardRenderer.country takes its code from the
row first value: a string becomes its first two characters upper-cased
(longer country names are silently truncated), any non-string first value
passes through unchanged. -/
theorem country_code_truncation (element : Element) (input : GeoInput)
    (i : Nat) (h : i < input.rows.length) :
    ∃ entry, (CardRenderer.country element input).chartData[i]? = some entry ∧
      (∀ s, jsIndex input.rows[i] 0 = JSValue.str s →
        entry.key = JSValue.str ((s.take 2).toUpper)) ∧
      ((∀ s, jsIndex input.rows[i] 0 ≠ JSValue.str s) →
        entry.key = jsIndex input.rows[i] 0) ∧
      entry.value = jsIndex input.rows[i] 1 := by
  refine ⟨{ key := countryCodeFromValue (jsIndex input.rows[i] 0)
            value := jsIndex input.rows[i] 1 }, ?_, ?_, ?_, rfl⟩
  · simp [CardRenderer.country, GeoHeatmapChartRenderer.render,
      GeoHeatmapChartRenderer.customize, GeoHeatmapChartRenderer.setProjection,
      GeoHeatmapChartRenderer.setJson, GeoHeatmapChartRenderer.setData,
      GeoHeatmapChartRenderer.init, List.getElem?_eq_getElem h]
  · intro s hs
    simp [countryCodeFromValue, hs]
  · intro hns
    cases hv : jsIndex input.rows[i] 0 with
    | str s => exact absurd hv (hns s)
    | num n => simp [countryCodeFromValue]
    | null => simp [countryCodeFromValue]
    | undef => simp [countryCodeFromValue]

/-- C10 witness: on concrete rows, Canada truncates to CA and a numeric
first value passes through unchanged. -/
theorem country_code_truncation_witness :
    (∃ entry, (CardRenderer.country ⟨0⟩ geoInputSample).chartData[0]? = some entry ∧
      (∀ s, jsIndex geoInputSample.rows[0] 0 = JSValue.str s →
        entry.key = JSValue.str ((s.take 2).toUpper)) ∧
      ((∀ s, jsIndex geoInputSample.rows[0] 0 ≠ JSValue.str s) →
        entry.key = jsIndex geoInputSample.rows[0] 0) ∧
      entry.value = jsIndex geoInputSample.rows[0] 1) := by
  exact country_code_truncation ⟨0⟩ geoInputSample 0 (by decide)

/-- C9: the second throw of pin_map is dead code: no input produces the
thrown outcome with the unable-to-find-columns message, because its guard
is the same condition the first guard already returned on. -/
theorem pin_map_second_throw_unreachable (enc : String → String) (card : PinCard) :
    pin_map enc card ≠
      PinMapOutcome.thrown "Map ERROR: unable to find specified latitude / longitude columns in source table" := by
  unfold pin_map
  dsimp only
  split
  · intro h; exact PinMapOutcome.noConfusion h
  · split
    · intro h
      have hmsg := PinMapOutcome.thrown.inj h
      simp at hmsg
    · intro h; exact PinMapOutcome.noConfusion h

end CardRendererModel
